import Mathlib

/-!
Verification of the token-lifecycle / network-resilience core of the
tweek-mcp repository, shallowly embedded in Lean 4.

Sources embedded here:
* `src/http/retry.ts` — `isIdempotentMethod`, `calculateRetryDelay`, `withRetry`
* `src/http/errors.ts` — `isRetriableError`, `isRetriableErrorObject`
* `src/auth/authManager.ts` — `isExpiringSoon`, `getValidIdToken`, `refresh`
* `src/auth/identityClient.ts` — `parseRetryAfterMs`, 429 classification
* `src/auth/tokenStore.ts` — `read`, `write`, `assertSecureFile`,
  `decryptEnvelopeToJson`, `encryptAesGcm`, `decryptAesGcm`

JavaScript numbers are modelled as `Int` (millisecond instants) or `ℚ`
(delay arithmetic involving fractional jitter).  External runtime
primitives (node crypto, JSON, base64, `Number`, `Date.parse`) are
parameters of the embedding; all control flow and error wrapping is
translated from the source.
-/

namespace TweekMCP

/-! ## HTTP error model (src/http/types.ts, src/http/errors.ts)

A thrown JS error value, as far as the retry logic inspects it: the retry
code only looks at a numeric `status` property (`HttpError.status` or any
object with a numeric `status`); `none` models an error value without one.
-/

structure JsError where
  status : Option Nat
  deriving DecidableEq, Repr

/-- Function `isRetriableError` from src/http/errors.ts:
`status >= 500 && status < 600`. -/
def isRetriableError (status : Nat) : Bool :=
  decide (500 ≤ status) && decide (status < 600)

/-- Function `isRetriableErrorObject` from src/http/errors.ts: an `HttpError` or any
object carrying a numeric `status` is retriable iff the status is 5xx;
anything else is not retriable. -/
def isRetriableErrorObject (e : JsError) : Bool :=
  match e.status with
  | some s => isRetriableError s
  | none => false

/-! ## Retry engine (src/http/retry.ts) -/

/-- Structure `RetryConfig` from src/http/types.ts.  Delay fields are rationals
because jitter arithmetic is fractional. -/
structure RetryConfig where
  maxAttempts : Nat
  initialDelayMs : ℚ
  maxDelayMs : ℚ
  jitterFactor : ℚ
  deriving Repr

/-- Function `isIdempotentMethod` from src/http/retry.ts:
`method === 'GET' || method === 'DELETE'` (case-sensitive string equality). -/
def isIdempotentMethod (method : String) : Bool :=
  method == "GET" || method == "DELETE"

/-- Function `calculateRetryDelay` from src/http/retry.ts.  `rand` is the value the
runtime's `Math.random()` returned (a number in `[0, 1)`):

```
const exponentialDelay = initialDelayMs * 2 ** (attempt - 1)
const cappedDelay = Math.min(exponentialDelay, maxDelayMs)
const jitter = cappedDelay * jitterFactor * (Math.random() - 0.5)
return Math.max(0, cappedDelay + jitter)
```
-/
def calculateRetryDelay (attempt : Nat) (config : RetryConfig) (rand : ℚ) : ℚ :=
  let exponentialDelay := config.initialDelayMs * (2 : ℚ) ^ (attempt - 1)
  let cappedDelay := min exponentialDelay config.maxDelayMs
  let jitter := cappedDelay * config.jitterFactor * (rand - 1/2)
  max 0 (cappedDelay + jitter)

/-- The retry loop of `withRetry` (src/http/retry.ts), starting at a given
attempt number with `remaining = maxAttempts - attempt` further attempts
allowed.  `ops n` is the outcome of the n-th execution of `operation`.
Returns the surfaced result together with the number of executions
performed.  On failure the loop rethrows when the attempt is the last one
(`attempt === config.maxAttempts`, i.e. `remaining = 0`) or when the error
is not retriable; otherwise it sleeps and re-attempts. -/
def retryGo {α : Type} (ops : Nat → Except JsError α) (attempt : Nat) :
    Nat → Except JsError α × Nat
  | 0 =>
    match ops attempt with
    | .ok v => (.ok v, 1)
    | .error e => (.error e, 1)
  | remaining + 1 =>
    match ops attempt with
    | .ok v => (.ok v, 1)
    | .error e =>
      if isRetriableErrorObject e then
        let next := retryGo ops (attempt + 1) remaining
        (next.1, next.2 + 1)
      else
        (.error e, 1)

/-- Function `withRetry` from src/http/retry.ts.  Non-idempotent methods run the
operation exactly once with no classification; idempotent methods enter
the retry loop.  (`maxAttempts = 0` makes the source's `for` loop run zero
times and throw its fallback `Error`, modelled with `status := none`.) -/
def withRetry {α : Type} (ops : Nat → Except JsError α) (method : String)
    (config : RetryConfig) : Except JsError α × Nat :=
  if !isIdempotentMethod method then
    (ops 1, 1)
  else if config.maxAttempts = 0 then
    (.error { status := none }, 0)
  else
    retryGo ops 1 (config.maxAttempts - 1)

/-- The composite retry classification applied by the executor: retriable
iff the method is idempotent (src/http/retry.ts line 91) and the error is a
5xx failure (src/http/errors.ts). -/
def retryClassified (method : String) (e : JsError) : Bool :=
  isIdempotentMethod method && isRetriableErrorObject e

/-! ## Auth manager (src/auth/authManager.ts) -/

/-- Structure `AuthTokens` from src/auth/types.ts: the Credential Pair.  `expiresAt`
is an absolute instant in milliseconds. -/
structure AuthTokens where
  idToken : String
  refreshToken : String
  expiresAt : Int
  deriving DecidableEq, Repr

/-- The value `IdentityClient.refreshIdToken` resolves with
(src/auth/identityClient.ts): `Pick<AuthTokens, 'idToken' | 'expiresAt'>` —
a renewed access token and expiry only, no refresh token field. -/
structure RefreshResult where
  idToken : String
  expiresAt : Int
  deriving DecidableEq, Repr

/-- Method `AuthManager.isExpiringSoon` (src/auth/authManager.ts lines 67-71):
`tokens.expiresAt <= nowMs + refreshBufferSec * 1000`. -/
def isExpiringSoon (refreshBufferSec nowMs : Int) (tokens : AuthTokens) : Bool :=
  decide (tokens.expiresAt ≤ nowMs + refreshBufferSec * 1000)

/-- The state update performed by `AuthManager.refresh`
(src/auth/authManager.ts lines 56-64) once `refreshIdToken` has resolved:
the new Credential Pair keeps the previously cached `refreshToken` and
takes `idToken`/`expiresAt` from the identity response; it is stored in the
cache and written to the token store.  Returns
`(new cached pair, pair written to the store)`. -/
def refreshUpdate (cached : AuthTokens) (updated : RefreshResult) :
    AuthTokens × AuthTokens :=
  let newTokens : AuthTokens :=
    { idToken := updated.idToken
      refreshToken := cached.refreshToken
      expiresAt := updated.expiresAt }
  (newTokens, newTokens)

/-- Result of one `getValidIdToken` call: the returned access token, the
cache afterwards, and whether a refresh (network exchange) was performed. -/
structure GetTokenOutcome where
  returned : String
  cache : AuthTokens
  refreshed : Bool
  deriving DecidableEq, Repr

/-- Method `AuthManager.getValidIdToken` (src/auth/authManager.ts lines 40-49) on
the path where the store read and any needed refresh succeed: load the
store into the cache when the cache is empty; if the cached pair is
expiring soon, refresh (with identity response `updated`) before returning
the cached access token. -/
def getValidIdToken (refreshBufferSec nowMs : Int) (cached : Option AuthTokens)
    (stored : AuthTokens) (updated : RefreshResult) : GetTokenOutcome :=
  let tokens := match cached with
    | none => stored
    | some t => t
  if isExpiringSoon refreshBufferSec nowMs tokens then
    let (newCache, _written) := refreshUpdate tokens updated
    { returned := newCache.idToken, cache := newCache, refreshed := true }
  else
    { returned := tokens.idToken, cache := tokens, refreshed := false }

/-- Observable outcome of two concurrent `getValidIdToken` calls. -/
structure ConcurrentOutcome where
  networkExchanges : Nat
  finalCache : AuthTokens
  returnedA : String
  returnedB : String
  deriving DecidableEq, Repr

/-- Trace of two concurrent `getValidIdToken` calls (tasks A and B) under
the repository's single-threaded cooperative model, with B arriving while
A's refresh is outstanding.  Each task runs the source code of
`getValidIdToken`/`refresh` (src/auth/authManager.ts lines 40-65)
synchronously up to the `await this.identityClient.refreshIdToken(...)`
suspension point; nothing in `refresh` guards against an in-flight
refresh, and the shared cache is only written after the network response
resolves.  Schedule: A runs to its suspension point, then B runs to its
suspension point, then A's response resumes A, then B's resumes B. -/
def runTwoConcurrentGetValid (refreshBufferSec nowMs : Int) (initial : AuthTokens)
    (updA updB : RefreshResult) : ConcurrentOutcome :=
  if isExpiringSoon refreshBufferSec nowMs initial then
    -- A enters refresh, captures the shared refresh token, and issues
    -- network exchange 1, suspending.  The cache is still `initial`.
    let rtA := initial.refreshToken
    if isExpiringSoon refreshBufferSec nowMs initial then
      -- B observes the unchanged cache, also enters refresh, and issues
      -- network exchange 2, suspending.
      let rtB := initial.refreshToken
      -- A resumes: cache and store are set to newA; A returns the cached id token.
      let newA : AuthTokens := { idToken := updA.idToken, refreshToken := rtA, expiresAt := updA.expiresAt }
      -- B resumes: cache and store are overwritten with newB; B returns it.
      let newB : AuthTokens := { idToken := updB.idToken, refreshToken := rtB, expiresAt := updB.expiresAt }
      { networkExchanges := 2, finalCache := newB
        returnedA := newA.idToken, returnedB := newB.idToken }
    else
      -- Unreachable: B evaluates the same guard on the same state as A.
      let newA : AuthTokens := { idToken := updA.idToken, refreshToken := rtA, expiresAt := updA.expiresAt }
      { networkExchanges := 1, finalCache := newA
        returnedA := newA.idToken, returnedB := initial.idToken }
  else
    { networkExchanges := 0, finalCache := initial
      returnedA := initial.idToken, returnedB := initial.idToken }

/-! ## Identity client retry-after parsing (src/auth/identityClient.ts) -/

/-- Function `parseRetryAfterMs` (src/auth/identityClient.ts lines 124-132).  The
runtime primitives are parameters: `jsNumber s` is `Number(s)` when that
yields a finite number (`none` for NaN and infinities), `jsDateParse s` is
`Date.parse(s)` when that yields a valid timestamp (`none` for NaN):

```
const seconds = Number(header)
if (Number.isFinite(seconds)) return Math.max(0, Math.floor(seconds * 1000))
const when = Date.parse(header)
if (!Number.isNaN(when)) return Math.max(0, when - nowMs)
return undefined
```
-/
def parseRetryAfterMs (jsNumber : String → Option ℚ) (jsDateParse : String → Option Int)
    (header : String) (nowMs : Int) : Option Int :=
  match jsNumber header with
  | some seconds => some (max 0 ⌊seconds * 1000⌋)
  | none =>
    match jsDateParse header with
    | some when => some (max 0 (when - nowMs))
    | none => none

/-- The `retryAfterMs` attached to the `IDENTITY_RATE_LIMITED` error on a
429 response (src/auth/identityClient.ts lines 104-113):
`retryAfterHeader != null ? parseRetryAfterMs(retryAfterHeader, Date.now()) : undefined`.
The parsing itself never raises: it produces either a duration or nothing. -/
def rateLimitedRetryAfterMs (jsNumber : String → Option ℚ) (jsDateParse : String → Option Int)
    (retryAfterHeader : Option String) (nowMs : Int) : Option Int :=
  match retryAfterHeader with
  | some h => parseRetryAfterMs jsNumber jsDateParse h nowMs
  | none => none

/-! ## Token store (src/auth/tokenStore.ts)

Buffers are byte lists.  The node runtime primitives used by the store
(SHA-256, AES-256-GCM, UTF-8, base64, JSON) are fields of `JsEnv`; the
store's own logic — envelope construction, version check, secure-file
check, error wrapping — is translated from the source. -/

/-- A byte buffer (node `Buffer`). -/
def ByteBuf : Type := List Nat

instance : DecidableEq ByteBuf := by
  unfold ByteBuf
  infer_instance

instance : Append ByteBuf := ⟨fun a b => List.append a b⟩

/-- Interface `EncryptedEnvelopeV1` from src/auth/tokenStore.ts.  The source's `v`
field is typed as the literal `1` but is checked at runtime against
arbitrary parsed JSON, so it is an `Int` here. -/
structure Envelope where
  v : Int
  nonce : String
  tag : String
  ciphertext : String
  deriving DecidableEq, Repr

/-- The node runtime primitives the token store calls. -/
structure JsEnv where
  /-- `createHash('sha256').update(key, 'utf8').digest()` -/
  sha256 : String → ByteBuf
  /-- `createCipheriv('aes-256-gcm', key, iv)`; returns (ciphertext, authTag). -/
  aesGcmEncrypt : ByteBuf → ByteBuf → ByteBuf → ByteBuf × ByteBuf
  /-- `createDecipheriv('aes-256-gcm', key, iv)` with `setAuthTag(tag)`;
  `none` models the auth-failure throw in `decipher.final()`. -/
  aesGcmDecrypt : ByteBuf → ByteBuf → ByteBuf → ByteBuf → Option ByteBuf
  /-- `Buffer.from(s, 'utf8')` -/
  utf8Encode : String → ByteBuf
  /-- `buffer.toString('utf8')` -/
  utf8Decode : ByteBuf → String
  /-- `buffer.toString('base64')` -/
  base64Encode : ByteBuf → String
  /-- `Buffer.from(s, 'base64')` -/
  base64Decode : String → ByteBuf
  /-- `JSON.stringify(tokens, null, 2)` -/
  stringifyTokens : AuthTokens → String
  /-- `JSON.parse(s) as AuthTokens`; `none` models a parse throw. -/
  parseTokens : String → Option AuthTokens
  /-- `JSON.stringify(envelope)` -/
  stringifyEnvelope : Envelope → String
  /-- `JSON.parse(s) as EncryptedEnvelopeV1`; `none` models a parse throw. -/
  parseEnvelope : String → Option Envelope

/-- Function `deriveKeyBytesFromString` from src/auth/tokenStore.ts: SHA-256 of the
key material yields the 32-byte AES key. -/
def deriveKeyBytesFromString (env : JsEnv) (key : String) : ByteBuf :=
  env.sha256 key

/-- Function `encryptAesGcm` from src/auth/tokenStore.ts.  The fresh random nonce
(`randomBytes(12)`) is passed in as `iv`. -/
def encryptAesGcm (env : JsEnv) (plaintext : ByteBuf) (keyString : String)
    (iv : ByteBuf) : Envelope :=
  let key := deriveKeyBytesFromString env keyString
  let (ciphertext, tag) := env.aesGcmEncrypt key iv plaintext
  { v := 1
    nonce := env.base64Encode iv
    tag := env.base64Encode tag
    ciphertext := env.base64Encode ciphertext }

/-- Function `decryptAesGcm` from src/auth/tokenStore.ts; `none` is the
authentication-failure throw. -/
def decryptAesGcm (env : JsEnv) (envelope : Envelope) (keyString : String) :
    Option ByteBuf :=
  let key := deriveKeyBytesFromString env keyString
  let iv := env.base64Decode envelope.nonce
  let tag := env.base64Decode envelope.tag
  let ciphertext := env.base64Decode envelope.ciphertext
  env.aesGcmDecrypt key iv ciphertext tag

/-- The filesystem entry at the configured tokens path. -/
inductive FsNode where
  /-- A regular file with a permission mode and utf8 content. -/
  | regular (mode : Nat) (content : String)
  /-- A symbolic link whose target is a regular file with the given mode
  and content (`lstat` reports the link itself; `readFile` follows it). -/
  | symlinkTo (mode : Nat) (content : String)
  /-- A directory. -/
  | directory
  deriving DecidableEq, Repr

/-- Filesystem state at the tokens path; `none` is ENOENT. -/
structure FsState where
  node : Option FsNode
  deriving DecidableEq, Repr

/-- The error codes of the `AppError` taxonomy (src/auth/errors.ts). -/
inductive AppErrCode where
  | tokensNotFound
  | tokensFormatUnsupported
  | tokensPathInvalid
  | identityUnauthorized
  | identityRateLimited
  | identityNetwork
  | internal
  deriving DecidableEq, Repr

/-- A value thrown inside `TokenStore.read`'s `try` block. -/
inductive Thrown where
  /-- A node fs errno error with its `code` string (ENOENT, EISDIR, ...). -/
  | errno (code : String)
  /-- An `AppError` with a taxonomy code. -/
  | appError (code : AppErrCode)
  /-- Any other `Error` (JSON `SyntaxError`, crypto auth failure). -/
  | jsError
  deriving DecidableEq, Repr

/-- The `AppError` surfaced by `TokenStore.read`, with its wrapped cause. -/
structure SurfacedError where
  code : AppErrCode
  cause : Option Thrown
  deriving DecidableEq, Repr

/-- Check `typeof this.encryptionKey === 'string' && this.encryptionKey.length > 0`
from src/auth/tokenStore.ts. -/
def hasEncryption (encryptionKey : Option String) : Bool :=
  match encryptionKey with
  | some k => decide (0 < k.length)
  | none => false

/-- The body of `TokenStore.assertSecureFile` before its own `catch`:
`lstatSync`, throw `TOKENS_PATH_INVALID` unless the entry is a regular
file, and `chmodSync(path, 0o600)` when the mode differs from `0o600`. -/
def assertSecureFileInner (fs : FsState) : Except Thrown FsState :=
  match fs.node with
  | none => .error (.errno "ENOENT")
  | some .directory => .error (.appError .tokensPathInvalid)
  | some (.symlinkTo _ _) => .error (.appError .tokensPathInvalid)
  | some (.regular mode content) =>
    if mode ≠ 0o600 then .ok { node := some (.regular 0o600 content) }
    else .ok fs

/-- Method `TokenStore.assertSecureFile` (src/auth/tokenStore.ts lines 362-378):
the whole body runs inside `try { ... } catch { /- ignore -/ }`, so every
throw — including the store's own `TOKENS_PATH_INVALID` — is swallowed and
the filesystem state is simply left as is. -/
def assertSecureFile (fs : FsState) : FsState :=
  match assertSecureFileInner fs with
  | .ok fs' => fs'
  | .error _ => fs

/-- Call `readFileSync(this.path)`: ENOENT when missing, EISDIR for a
directory, the (target) content for a regular file or a symlink. -/
def readFileSync (fs : FsState) : Except Thrown String :=
  match fs.node with
  | none => .error (.errno "ENOENT")
  | some .directory => .error (.errno "EISDIR")
  | some (.regular _ content) => .ok content
  | some (.symlinkTo _ content) => .ok content

/-- Method `TokenStore.decryptEnvelopeToJson` (src/auth/tokenStore.ts lines
354-360).  The second component records whether `decryptAesGcm` was
invoked.

```
const envelope = JSON.parse(data.toString('utf8')) as EncryptedEnvelopeV1
if (envelope?.v !== 1)
  throw new AppError('TOKENS_FORMAT_UNSUPPORTED', ...)
const plaintext = decryptAesGcm(envelope, this.encryptionKey as string)
return plaintext.toString('utf8')
```
-/
def decryptEnvelopeToJson (env : JsEnv) (encryptionKey : String) (data : String) :
    Except Thrown String × Bool :=
  match env.parseEnvelope data with
  | none => (.error .jsError, false)
  | some envelope =>
    if envelope.v ≠ 1 then
      (.error (.appError .tokensFormatUnsupported), false)
    else
      match decryptAesGcm env envelope encryptionKey with
      | some plaintext => (.ok (env.utf8Decode plaintext), true)
      | none => (.error .jsError, true)

/-- The `try` body of `TokenStore.read` (src/auth/tokenStore.ts lines
324-333): secure-file check, file read, optional envelope decryption, JSON
parse.  Returns the outcome, the filesystem state afterwards (the check
may chmod), and whether decryption was attempted. -/
def tokenStoreReadTry (env : JsEnv) (encryptionKey : Option String) (fs : FsState) :
    Except Thrown AuthTokens × FsState × Bool :=
  let fs1 := assertSecureFile fs
  match readFileSync fs1 with
  | .error t => (.error t, fs1, false)
  | .ok data =>
    let (jsonTextE, decryptAttempted) :=
      if hasEncryption encryptionKey then
        decryptEnvelopeToJson env (encryptionKey.getD "") data
      else
        (.ok data, false)
    match jsonTextE with
    | .error t => (.error t, fs1, decryptAttempted)
    | .ok jsonText =>
      match env.parseTokens jsonText with
      | none => (.error .jsError, fs1, decryptAttempted)
      | some tokens => (.ok tokens, fs1, decryptAttempted)

/-- Method `TokenStore.read` (src/auth/tokenStore.ts lines 324-340) including its
`catch` clause, which rethrows ENOENT as `TOKENS_NOT_FOUND` and wraps
every other thrown value — `isNodeErrno` only checks for a `code`
property, and only `'ENOENT'` is special-cased — as `INTERNAL` with the
original error as `cause`:

```
catch (err: unknown) {
  if (isNodeErrno(err) && err.code === 'ENOENT') {
    throw new AppError('TOKENS_NOT_FOUND', ...)
  }
  throw new AppError('INTERNAL', 'Failed to read tokens', { cause: err, ... })
}
```
-/
def tokenStoreRead (env : JsEnv) (encryptionKey : Option String) (fs : FsState) :
    Except SurfacedError AuthTokens × FsState × Bool :=
  match tokenStoreReadTry env encryptionKey fs with
  | (.ok tokens, fs1, dec) => (.ok tokens, fs1, dec)
  | (.error t, fs1, dec) =>
    match t with
    | .errno "ENOENT" => (.error { code := .tokensNotFound, cause := none }, fs1, dec)
    | _ => (.error { code := .internal, cause := some t }, fs1, dec)

/-- Method `TokenStore.write` (src/auth/tokenStore.ts lines 342-352): serialize,
optionally encrypt into a version-1 envelope (with the fresh random nonce
`iv`), write the file, and force mode `0o600` with a final `chmodSync`. -/
def tokenStoreWrite (env : JsEnv) (encryptionKey : Option String) (iv : ByteBuf)
    (tokens : AuthTokens) (_fs : FsState) : FsState :=
  let jsonText := env.stringifyTokens tokens
  let content :=
    if hasEncryption encryptionKey then
      env.stringifyEnvelope
        (encryptAesGcm env (env.utf8Encode jsonText) (encryptionKey.getD "") iv)
    else
      jsonText
  { node := some (.regular 0o600 content) }

/-! ## Abbreviations for the write path

Shared vocabulary for the round-trip statements: the plaintext buffer, the
ciphertext/tag pair and the envelope that `TokenStore.write` produces for
a given pair, key and nonce. -/

/-- The serialized plaintext buffer `Buffer.from(JSON.stringify(tokens, null, 2), 'utf8')`. -/
def writePlain (env : JsEnv) (tokens : AuthTokens) : ByteBuf :=
  env.utf8Encode (env.stringifyTokens tokens)

/-- The (ciphertext, authTag) pair produced when writing `tokens` under
key material `k` with nonce `iv`. -/
def writeCipherTag (env : JsEnv) (k : String) (iv : ByteBuf) (tokens : AuthTokens) :
    ByteBuf × ByteBuf :=
  env.aesGcmEncrypt (deriveKeyBytesFromString env k) iv (writePlain env tokens)

/-- The version-1 envelope produced when writing `tokens` under key
material `k` with nonce `iv`. -/
def writeEnvelope (env : JsEnv) (k : String) (iv : ByteBuf) (tokens : AuthTokens) :
    Envelope :=
  encryptAesGcm env (writePlain env tokens) k iv

/-! ## A concrete runtime environment for witnesses

An executable stand-in for the node primitives, adequate on the concrete
inputs the witnesses use: byte buffers are character codes, the AEAD tag
is `key ++ iv` (so decryption with a different derived key rejects), and
JSON serialization uses a separator-based format that is invertible on the
witness values. -/

/-- Character codes of a string, the demo byte encoding. -/
def demoBytesOfString (s : String) : ByteBuf :=
  s.toList.map Char.toNat

/-- Inverse of `demoBytesOfString` on ASCII content. -/
def demoStringOfBytes (b : ByteBuf) : String :=
  String.mk (b.map Char.ofNat)

/-- Demo base64: each byte becomes two characters drawn from a..p. -/
def demoB64Encode (b : ByteBuf) : String :=
  String.mk (b.foldr (fun x acc => Char.ofNat (97 + x / 16) :: Char.ofNat (97 + x % 16) :: acc) [])

/-- Decoder for the character-pair list underlying `demoB64Encode`. -/
def demoB64DecodeList : List Char → List Nat
  | c1 :: c2 :: rest => ((c1.toNat - 97) * 16 + (c2.toNat - 97)) :: demoB64DecodeList rest
  | _ => []

/-- Inverse of `demoB64Encode` on byte values below 256. -/
def demoB64Decode (s : String) : ByteBuf :=
  demoB64DecodeList s.toList

/-- Splitter on the bar separator, by structural recursion so the kernel
can evaluate it. -/
def demoSplitChars : List Char → List (List Char)
  | [] => [[]]
  | c :: rest =>
    match demoSplitChars rest with
    | [] => [[c]]
    | h :: t => if c = '|' then [] :: h :: t else (c :: h) :: t

/-- Decimal digit value of a character, if it is a digit. -/
def demoDigit? (c : Char) : Option Nat :=
  if 48 ≤ c.toNat ∧ c.toNat ≤ 57 then some (c.toNat - 48) else none

/-- Accumulating decimal parser for a digit list. -/
def demoParseNatGo : List Char → Nat → Option Nat
  | [], acc => some acc
  | c :: rest, acc =>
    match demoDigit? c with
    | some d => demoParseNatGo rest (acc * 10 + d)
    | none => none

/-- Decimal integer parser for a character list. -/
def demoParseInt (l : List Char) : Option Int :=
  match l with
  | [] => none
  | '-' :: rest =>
    match rest with
    | [] => none
    | _ => (demoParseNatGo rest 0).map (fun n => -(n : Int))
  | _ => (demoParseNatGo l 0).map (fun n => (n : Int))

/-- Fueled digit printer (fuel bounds the number of digits). -/
def demoNatDigitsGo : Nat → Nat → List Char
  | 0, _ => []
  | fuel + 1, n => if n = 0 then [] else demoNatDigitsGo fuel (n / 10) ++ [Char.ofNat (48 + n % 10)]

/-- Decimal rendering of an integer. -/
def demoIntToString (i : Int) : String :=
  match i with
  | .ofNat 0 => "0"
  | .ofNat n => String.mk (demoNatDigitsGo (n + 1) n)
  | .negSucc m => String.mk ('-' :: demoNatDigitsGo (m + 2) (m + 1))

/-- Demo token serialization, injective on separator-free fields. -/
def demoStringifyTokens (t : AuthTokens) : String :=
  t.idToken ++ "|" ++ t.refreshToken ++ "|" ++ demoIntToString t.expiresAt

/-- Inverse of `demoStringifyTokens` on separator-free fields. -/
def demoParseTokens (s : String) : Option AuthTokens :=
  match demoSplitChars s.toList with
  | [a, b, c] =>
    (demoParseInt c).map (fun e =>
      { idToken := String.mk a, refreshToken := String.mk b, expiresAt := e })
  | _ => none

/-- Demo envelope serialization. -/
def demoStringifyEnvelope (e : Envelope) : String :=
  demoIntToString e.v ++ "|" ++ e.nonce ++ "|" ++ e.tag ++ "|" ++ e.ciphertext

/-- Inverse of `demoStringifyEnvelope` on separator-free components. -/
def demoParseEnvelope (s : String) : Option Envelope :=
  match demoSplitChars s.toList with
  | [v, n, t, c] =>
    (demoParseInt v).map (fun vi =>
      { v := vi, nonce := String.mk n, tag := String.mk t, ciphertext := String.mk c })
  | _ => none

/-- The demo environment assembling the stand-ins above. -/
def demoEnv : JsEnv where
  sha256 := demoBytesOfString
  aesGcmEncrypt := fun key iv pt => (pt, key ++ iv)
  aesGcmDecrypt := fun key iv ct tag => if tag = key ++ iv then some ct else none
  utf8Encode := demoBytesOfString
  utf8Decode := demoStringOfBytes
  base64Encode := demoB64Encode
  base64Decode := demoB64Decode
  stringifyTokens := demoStringifyTokens
  parseTokens := demoParseTokens
  stringifyEnvelope := demoStringifyEnvelope
  parseEnvelope := demoParseEnvelope

/-! ## Theorems -/

/-- C4: for every Credential Pair, buffer (seconds) and current time (ms),
`isExpiringSoon` holds iff `expiresAt ≤ now + buf * 1000`, and boundary
equality counts as expiring soon, triggering a refresh in
`getValidIdToken`. -/
theorem isExpiringSoon_iff_boundary_inclusive :
    (∀ (buf now : Int) (t : AuthTokens),
      isExpiringSoon buf now t = true ↔ t.expiresAt ≤ now + buf * 1000)
    ∧ (∀ (buf now : Int) (cached : Option AuthTokens) (stored : AuthTokens)
        (updated : RefreshResult),
        (cached.getD stored).expiresAt = now + buf * 1000 →
        (getValidIdToken buf now cached stored updated).refreshed = true) := by
  constructor
  · intro buf now t
    simp [isExpiringSoon]
  · intro buf now cached stored updated h
    cases cached with
    | none =>
      simp only [Option.getD_none] at h
      simp [getValidIdToken, isExpiringSoon, h]
    | some t =>
      simp only [Option.getD_some] at h
      simp [getValidIdToken, isExpiringSoon, h]

/-- C9: the state update of a successful `AuthManager.refresh` never
rotates the refresh token: both the new cached pair and the pair written
to the store keep the previous `refreshToken`, while `idToken` and
`expiresAt` come from the identity response (which carries no refresh
token at all). -/
theorem refresh_preserves_refreshToken :
    ∀ (cached : AuthTokens) (updated : RefreshResult),
      (refreshUpdate cached updated).1.refreshToken = cached.refreshToken
      ∧ (refreshUpdate cached updated).2.refreshToken = cached.refreshToken
      ∧ (refreshUpdate cached updated).2 = (refreshUpdate cached updated).1
      ∧ (refreshUpdate cached updated).1.idToken = updated.idToken
      ∧ (refreshUpdate cached updated).1.expiresAt = updated.expiresAt := by
  intro cached updated
  exact ⟨rfl, rfl, rfl, rfl, rfl⟩

/-- C10: `isIdempotentMethod` is case-sensitive — it holds exactly for the
strings "GET" and "DELETE" — and for any other method string (such as
lowercase "get" or "delete") `withRetry` runs the operation exactly once,
surfacing its outcome with no retry. -/
theorem isIdempotentMethod_case_sensitive (α : Type) :
    (∀ m : String, isIdempotentMethod m = true ↔ m = "GET" ∨ m = "DELETE")
    ∧ (∀ (m : String) (config : RetryConfig) (ops : Nat → Except JsError α),
        m ≠ "GET" → m ≠ "DELETE" → withRetry ops m config = (ops 1, 1)) := by
  constructor
  · intro m
    simp [isIdempotentMethod]
  · intro m config ops h1 h2
    have hm : isIdempotentMethod m = false := by
      simp [isIdempotentMethod, h1, h2]
    simp [withRetry, hm]

/-- C10 witness: the lowercase method "get" is treated as non-idempotent,
so a 503 failure is surfaced after a single execution. -/
theorem isIdempotentMethod_case_sensitive_witness :
    withRetry (fun _ => (.error { status := some 503 } : Except JsError Nat)) "get"
        { maxAttempts := 3, initialDelayMs := 1000, maxDelayMs := 10000, jitterFactor := 1/10 }
      = ((fun _ => (.error { status := some 503 } : Except JsError Nat)) 1, 1) :=
  (isIdempotentMethod_case_sensitive Nat).2 "get" _ _ (by decide) (by decide)

/-- C5: the executor's retry classification holds exactly when the method
is idempotent and the failure status is in the 5xx bucket; and for a
non-idempotent method the operation runs exactly once, its outcome
surfacing immediately regardless of the configured attempts. -/
theorem retryClassified_iff_idempotent_5xx (α : Type) :
    (∀ (method : String) (e : JsError) (s : Nat),
      e.status = some s →
      (retryClassified method e = true ↔
        (isIdempotentMethod method = true ∧ 500 ≤ s ∧ s < 600)))
    ∧ (∀ (method : String) (config : RetryConfig) (ops : Nat → Except JsError α),
        isIdempotentMethod method = false → withRetry ops method config = (ops 1, 1)) := by
  constructor
  · intro method e s hs
    simp [retryClassified, isRetriableErrorObject, hs, isRetriableError, and_assoc]
  · intro method config ops hm
    simp [withRetry, hm]

/-- C5 witness: a POST returning 500 is not classified retryable and the
operation runs exactly once, the 500 error surfacing with zero retries. -/
theorem retryClassified_iff_idempotent_5xx_witness :
    (retryClassified "POST" { status := some 500 } = true ↔
      (isIdempotentMethod "POST" = true ∧ 500 ≤ 500 ∧ 500 < 600))
    ∧ withRetry (fun _ => (.error { status := some 500 } : Except JsError Nat)) "POST"
        { maxAttempts := 3, initialDelayMs := 1000, maxDelayMs := 10000, jitterFactor := 1/10 }
      = ((fun _ => (.error { status := some 500 } : Except JsError Nat)) 1, 1) :=
  ⟨(retryClassified_iff_idempotent_5xx Nat).1 "POST" { status := some 500 } 500 rfl,
   (retryClassified_iff_idempotent_5xx Nat).2 "POST" _ _ (by decide)⟩

/-- C3: two concurrent `getValidIdToken` calls that both observe a cached
pair within the refresh buffer while the first call's refresh is
outstanding perform two network refresh exchanges, not one: nothing in
`AuthManager.refresh` guards against an in-flight refresh. -/
theorem concurrent_getValid_two_exchanges (buf now : Int) (initial : AuthTokens)
    (updA updB : RefreshResult)
    (h : isExpiringSoon buf now initial = true) :
    (runTwoConcurrentGetValid buf now initial updA updB).networkExchanges = 2
    ∧ (runTwoConcurrentGetValid buf now initial updA updB).networkExchanges ≠ 1 := by
  simp [runTwoConcurrentGetValid, h]

/-- C3 witness: a concrete expiring cache (expiresAt equal to now, buffer
60 s) makes the two concurrent calls perform two network exchanges. -/
theorem concurrent_getValid_two_exchanges_witness :
    (runTwoConcurrentGetValid 60 1000000
        { idToken := "old", refreshToken := "r", expiresAt := 1000000 }
        { idToken := "newA", expiresAt := 5000000 }
        { idToken := "newB", expiresAt := 5000000 }).networkExchanges = 2
    ∧ (runTwoConcurrentGetValid 60 1000000
        { idToken := "old", refreshToken := "r", expiresAt := 1000000 }
        { idToken := "newA", expiresAt := 5000000 }
        { idToken := "newB", expiresAt := 5000000 }).networkExchanges ≠ 1 :=
  concurrent_getValid_two_exchanges 60 1000000 _ _ _ (by decide)

/-- C6: for attempt n ≥ 1 the pre-jitter delay is
`min(initialDelayMs * 2 ^ (n - 1), maxDelayMs)`; the jitter perturbation
lies within ± (delay * jitterFactor / 2) for every random draw in [0, 1];
and the post-jitter delay is never negative. -/
theorem calculateRetryDelay_backoff_jitter_nonneg (attempt : Nat)
    (config : RetryConfig) (rand : ℚ)
    (_hatt : 1 ≤ attempt) (hr0 : 0 ≤ rand) (hr1 : rand ≤ 1)
    (hjf : 0 ≤ config.jitterFactor) (hinit : 0 ≤ config.initialDelayMs)
    (hmax : 0 ≤ config.maxDelayMs) :
    ∃ jitter : ℚ,
      |jitter| ≤ min (config.initialDelayMs * 2 ^ (attempt - 1)) config.maxDelayMs
                  * config.jitterFactor / 2
      ∧ calculateRetryDelay attempt config rand
          = max 0 (min (config.initialDelayMs * 2 ^ (attempt - 1)) config.maxDelayMs + jitter)
      ∧ 0 ≤ calculateRetryDelay attempt config rand := by
  set d : ℚ := min (config.initialDelayMs * 2 ^ (attempt - 1)) config.maxDelayMs with hd
  have hd0 : 0 ≤ d := le_min (by positivity) hmax
  refine ⟨d * config.jitterFactor * (rand - 1/2), ?_, ?_, ?_⟩
  · have habs : |rand - 1/2| ≤ 1/2 := abs_le.2 ⟨by linarith, by linarith⟩
    have hdj : 0 ≤ d * config.jitterFactor := mul_nonneg hd0 hjf
    calc |d * config.jitterFactor * (rand - 1/2)|
        = d * config.jitterFactor * |rand - 1/2| := by
          rw [abs_mul, abs_of_nonneg hdj]
      _ ≤ d * config.jitterFactor * (1/2) := by
          exact mul_le_mul_of_nonneg_left habs hdj
      _ = d * config.jitterFactor / 2 := by ring
  · simp only [calculateRetryDelay, hd]
  · exact le_max_left 0 _

/-- C6 witness: attempt 1 with the default config and random draw 0. -/
theorem calculateRetryDelay_backoff_jitter_nonneg_witness :
    ∃ jitter : ℚ,
      |jitter| ≤ min ((1000 : ℚ) * 2 ^ (1 - 1)) 10000 * (1/10) / 2
      ∧ calculateRetryDelay 1
          { maxAttempts := 3, initialDelayMs := 1000, maxDelayMs := 10000, jitterFactor := 1/10 } 0
          = max 0 (min ((1000 : ℚ) * 2 ^ (1 - 1)) 10000 + jitter)
      ∧ 0 ≤ calculateRetryDelay 1
          { maxAttempts := 3, initialDelayMs := 1000, maxDelayMs := 10000, jitterFactor := 1/10 } 0 :=
  calculateRetryDelay_backoff_jitter_nonneg 1
    { maxAttempts := 3, initialDelayMs := 1000, maxDelayMs := 10000, jitterFactor := 1/10 } 0
    (by norm_num) (by norm_num) (by norm_num) (by norm_num) (by norm_num) (by norm_num)

/-- C8: a retry-after header that `Number` parses as a finite integer
number of seconds s ≥ 0 yields `retryAfterMs = s * 1000`; an HTTP-date
header yields the non-negative millisecond distance `max 0 (date - now)`;
an absent header leaves `retryAfterMs` unset on the rate-limited error;
and an unparseable header yields no duration rather than an error. -/
theorem parseRetryAfterMs_seconds_date_absent
    (jsNumber : String → Option ℚ) (jsDateParse : String → Option Int)
    (header : String) (s nowMs : Int)
    (hnum : jsNumber header = some (s : ℚ)) (hs : 0 ≤ s) :
    parseRetryAfterMs jsNumber jsDateParse header nowMs = some (s * 1000)
    ∧ (∀ (hdr : String) (t nowMs2 : Int), jsNumber hdr = none → jsDateParse hdr = some t →
        parseRetryAfterMs jsNumber jsDateParse hdr nowMs2 = some (max 0 (t - nowMs2))
        ∧ 0 ≤ max 0 (t - nowMs2))
    ∧ (∀ nowMs2 : Int, rateLimitedRetryAfterMs jsNumber jsDateParse none nowMs2 = none)
    ∧ (∀ (hdr : String) (nowMs2 : Int), jsNumber hdr = none → jsDateParse hdr = none →
        parseRetryAfterMs jsNumber jsDateParse hdr nowMs2 = none) := by
  refine ⟨?_, ?_, ?_, ?_⟩
  · have hfloor : ⌊(s : ℚ) * 1000⌋ = s * 1000 := by
      have : ((s : ℚ) * 1000) = ((s * 1000 : ℤ) : ℚ) := by push_cast; ring
      rw [this, Int.floor_intCast]
    have hmax : max (0 : ℤ) (s * 1000) = s * 1000 :=
      max_eq_right (by positivity)
    simp [parseRetryAfterMs, hnum, hfloor, hmax]
  · intro hdr t nowMs2 hn hdt
    refine ⟨?_, le_max_left 0 _⟩
    simp [parseRetryAfterMs, hn, hdt]
  · intro nowMs2
    simp [rateLimitedRetryAfterMs]
  · intro hdr nowMs2 hn hdt
    simp [parseRetryAfterMs, hn, hdt]

/-- C8 witness: at a primitive numeric parser that reads "120" as 120, a
`retry-after: 120` header on a 429 yields 120000 ms, and the other three
branches are exercised at concrete inputs. -/
theorem parseRetryAfterMs_seconds_date_absent_witness :
    parseRetryAfterMs (fun h => if h = "120" then some 120 else none) (fun _ => none)
        "120" 0 = some (120 * 1000)
    ∧ (∀ (hdr : String) (t nowMs2 : Int),
        (fun h => if h = "120" then some (120 : ℚ) else none) hdr = none →
        (fun _ : String => (none : Option Int)) hdr = some t →
        parseRetryAfterMs (fun h => if h = "120" then some 120 else none) (fun _ => none)
            hdr nowMs2 = some (max 0 (t - nowMs2))
        ∧ 0 ≤ max 0 (t - nowMs2))
    ∧ (∀ nowMs2 : Int,
        rateLimitedRetryAfterMs (fun h => if h = "120" then some 120 else none)
          (fun _ => none) none nowMs2 = none)
    ∧ (∀ (hdr : String) (nowMs2 : Int),
        (fun h => if h = "120" then some (120 : ℚ) else none) hdr = none →
        (fun _ : String => (none : Option Int)) hdr = none →
        parseRetryAfterMs (fun h => if h = "120" then some 120 else none) (fun _ => none)
            hdr nowMs2 = none) :=
  parseRetryAfterMs_seconds_date_absent
    (fun h => if h = "120" then some 120 else none) (fun _ => none)
    "120" 120 0 (by norm_num) (by norm_num)

/-- C1 (against the claim): with an encryption key configured and a
regular tokens file holding an envelope of version 2, `read()` does not
surface the `TOKENS_FORMAT_UNSUPPORTED` kind: the catch clause of `read`
re-wraps the store's own `AppError` as `INTERNAL` (only `ENOENT` is
special-cased), so the surfaced kind is `INTERNAL` with the
format-unsupported error as its cause.  No decryption is attempted, as
the claim states. -/
theorem read_unknownVersion_internal_no_decrypt
    (env : JsEnv) (k content : String) (envelope : Envelope)
    (hk : 0 < k.length)
    (hparse : env.parseEnvelope content = some envelope)
    (hv : envelope.v = 2) :
    (tokenStoreRead env (some k) { node := some (.regular 0o600 content) }).1
      = .error { code := .internal, cause := some (.appError .tokensFormatUnsupported) }
    ∧ (tokenStoreRead env (some k) { node := some (.regular 0o600 content) }).1
        ≠ .error { code := .tokensFormatUnsupported, cause := none }
    ∧ (tokenStoreRead env (some k) { node := some (.regular 0o600 content) }).2.2 = false := by
  have henc : hasEncryption (some k) = true := by
    simp [hasEncryption, hk]
  have hres : tokenStoreReadTry env (some k) { node := some (.regular 0o600 content) }
      = (.error (.appError .tokensFormatUnsupported),
          { node := some (.regular 0o600 content) }, false) := by
    simp [tokenStoreReadTry, assertSecureFile, assertSecureFileInner, readFileSync,
      henc, decryptEnvelopeToJson, hparse, hv]
  refine ⟨?_, by simp [tokenStoreRead, hres], by simp [tokenStoreRead, hres]⟩
  simp [tokenStoreRead, hres]

/-- C1 witness: a concrete version-2 envelope under the demo runtime. -/
theorem read_unknownVersion_internal_no_decrypt_witness :
    (tokenStoreRead demoEnv (some "k") { node := some (.regular 0o600 "2|aa|bb|cc") }).1
      = .error { code := .internal, cause := some (.appError .tokensFormatUnsupported) }
    ∧ (tokenStoreRead demoEnv (some "k") { node := some (.regular 0o600 "2|aa|bb|cc") }).1
        ≠ .error { code := .tokensFormatUnsupported, cause := none }
    ∧ (tokenStoreRead demoEnv (some "k") { node := some (.regular 0o600 "2|aa|bb|cc") }).2.2
        = false :=
  read_unknownVersion_internal_no_decrypt demoEnv "k" "2|aa|bb|cc"
    { v := 2, nonce := "aa", tag := "bb", ciphertext := "cc" }
    (by decide) (by rfl) rfl

/-- C2 (against the claim): when the tokens path is a symlink to a regular
file, `read()` does not fail with `TOKENS_PATH_INVALID` — the throw inside
`assertSecureFile` is swallowed by that method's own catch-all — and the
file content is read through the symlink and returned.  The claim's second
half does hold: a regular file with a mode other than 0o600 is read
successfully and its permissions are silently corrected to 0o600. -/
theorem read_symlink_reads_through
    (env : JsEnv) (mode : Nat) (content : String) (tokens : AuthTokens)
    (hparse : env.parseTokens content = some tokens) :
    (tokenStoreRead env none { node := some (.symlinkTo mode content) }).1 = .ok tokens
    ∧ (∀ (m : Nat) (c : String) (t : AuthTokens), m ≠ 0o600 → env.parseTokens c = some t →
        (tokenStoreRead env none { node := some (.regular m c) }).1 = .ok t
        ∧ (tokenStoreRead env none { node := some (.regular m c) }).2.1
            = { node := some (.regular 0o600 c) }) := by
  constructor
  · simp [tokenStoreRead, tokenStoreReadTry, assertSecureFile, assertSecureFileInner,
      readFileSync, hasEncryption, hparse]
  · intro m c t hm hp
    constructor
    · simp [tokenStoreRead, tokenStoreReadTry, assertSecureFile, assertSecureFileInner,
        readFileSync, hasEncryption, hm, hp]
    · simp [tokenStoreRead, tokenStoreReadTry, assertSecureFile, assertSecureFileInner,
        readFileSync, hasEncryption, hm, hp]

/-- C2 witness: under the demo runtime, a symlinked tokens file is read
through and returned, and a mode-0o644 regular file is read with its
permissions corrected. -/
theorem read_symlink_reads_through_witness :
    (tokenStoreRead demoEnv none { node := some (.symlinkTo 0o600 "id|rt|123") }).1
      = .ok { idToken := "id", refreshToken := "rt", expiresAt := 123 }
    ∧ (∀ (m : Nat) (c : String) (t : AuthTokens), m ≠ 0o600 →
        demoEnv.parseTokens c = some t →
        (tokenStoreRead demoEnv none { node := some (.regular m c) }).1 = .ok t
        ∧ (tokenStoreRead demoEnv none { node := some (.regular m c) }).2.1
            = { node := some (.regular 0o600 c) }) :=
  read_symlink_reads_through demoEnv 0o600 "id|rt|123"
    { idToken := "id", refreshToken := "rt", expiresAt := 123 } (by rfl)

/-- C7: writing a Credential Pair under an encryption key and reading it
back with the same key returns the original pair, provided the runtime
primitives invert each other on the written values (AES-GCM decryption
inverts encryption under the same derived key, base64 and UTF-8 decode
invert their encoders, and JSON parsing inverts serialization); and
reading with a different key whose AES-GCM decryption rejects the
authentication tag fails with the `INTERNAL` kind, never yielding a pair. -/
theorem tokenStore_roundtrip_wrongKey_internal
    (env : JsEnv) (k k2 : String) (tokens : AuthTokens) (iv : ByteBuf) (fs0 : FsState)
    (hk : 0 < k.length) (hk2 : 0 < k2.length)
    (hE : env.parseEnvelope (env.stringifyEnvelope (writeEnvelope env k iv tokens))
            = some (writeEnvelope env k iv tokens))
    (hbNonce : env.base64Decode (env.base64Encode iv) = iv)
    (hbTag : env.base64Decode (env.base64Encode (writeCipherTag env k iv tokens).2)
               = (writeCipherTag env k iv tokens).2)
    (hbCt : env.base64Decode (env.base64Encode (writeCipherTag env k iv tokens).1)
               = (writeCipherTag env k iv tokens).1)
    (hgood : env.aesGcmDecrypt (deriveKeyBytesFromString env k) iv
               (writeCipherTag env k iv tokens).1 (writeCipherTag env k iv tokens).2
               = some (writePlain env tokens))
    (hutf : env.utf8Decode (writePlain env tokens) = env.stringifyTokens tokens)
    (hparse : env.parseTokens (env.stringifyTokens tokens) = some tokens)
    (hbad : env.aesGcmDecrypt (deriveKeyBytesFromString env k2) iv
              (writeCipherTag env k iv tokens).1 (writeCipherTag env k iv tokens).2
              = none) :
    (tokenStoreRead env (some k) (tokenStoreWrite env (some k) iv tokens fs0)).1
      = .ok tokens
    ∧ (tokenStoreRead env (some k2) (tokenStoreWrite env (some k) iv tokens fs0)).1
        = .error { code := .internal, cause := some .jsError } := by
  have henc : hasEncryption (some k) = true := by
    simp [hasEncryption, hk]
  have henc2 : hasEncryption (some k2) = true := by
    simp [hasEncryption, hk2]
  have hwrite : tokenStoreWrite env (some k) iv tokens fs0
      = { node := some (.regular 0o600
            (env.stringifyEnvelope (writeEnvelope env k iv tokens))) } := by
    simp [tokenStoreWrite, henc, writeEnvelope, writePlain]
  have hv1 : (writeEnvelope env k iv tokens).v = 1 := rfl
  have hnonce : (writeEnvelope env k iv tokens).nonce = env.base64Encode iv := rfl
  have htag : (writeEnvelope env k iv tokens).tag
      = env.base64Encode (writeCipherTag env k iv tokens).2 := rfl
  have hct : (writeEnvelope env k iv tokens).ciphertext
      = env.base64Encode (writeCipherTag env k iv tokens).1 := rfl
  constructor
  · simp [tokenStoreRead, tokenStoreReadTry, hwrite, assertSecureFile,
      assertSecureFileInner, readFileSync, henc, decryptEnvelopeToJson, hE, hv1,
      decryptAesGcm, hnonce, htag, hct, hbNonce, hbTag, hbCt, hgood, hutf, hparse]
  · simp [tokenStoreRead, tokenStoreReadTry, hwrite, assertSecureFile,
      assertSecureFileInner, readFileSync, henc2, decryptEnvelopeToJson, hE, hv1,
      decryptAesGcm, hnonce, htag, hct, hbNonce, hbTag, hbCt, hbad]

/-- C7 witness: a concrete pair, nonce and key pair under the demo
runtime — reading back with the writing key returns the pair, reading
with the other key fails with the `INTERNAL` kind. -/
theorem tokenStore_roundtrip_wrongKey_internal_witness :
    (tokenStoreRead demoEnv (some "k1")
        (tokenStoreWrite demoEnv (some "k1") [0, 1, 2]
          { idToken := "id", refreshToken := "rt", expiresAt := 123 } { node := none })).1
      = .ok { idToken := "id", refreshToken := "rt", expiresAt := 123 }
    ∧ (tokenStoreRead demoEnv (some "k2")
        (tokenStoreWrite demoEnv (some "k1") [0, 1, 2]
          { idToken := "id", refreshToken := "rt", expiresAt := 123 } { node := none })).1
      = .error { code := .internal, cause := some .jsError } :=
  tokenStore_roundtrip_wrongKey_internal demoEnv "k1" "k2"
    { idToken := "id", refreshToken := "rt", expiresAt := 123 } [0, 1, 2] { node := none }
    (by decide) (by decide) (by rfl) (by rfl) (by rfl) (by rfl) (by rfl) (by rfl)
    (by rfl) (by rfl)

end TweekMCP
